import Mathlib

/-
Verification of the LLM-client core of the Mirr repository
(src/llm/models.py, src/llm/history.py, src/llm/client.py),
shallowly embedded in Lean 4.

Conventions of the embedding:
* Python `str` is Lean `String`; Python `int` is `Nat` or `Int` as the
  code demands (Python ints are unbounded, so no modular wrap is needed);
  Python `float` cost arithmetic is modelled over `Rat` (the costs are
  exact decimal fractions in the code, and the claims are about the
  arithmetic structure, not about rounding).
* `datetime.now()` timestamps are abstract ticks (`Nat`) supplied to each
  mutation as an explicit `now` argument; an operation that never reads the
  clock in the source simply ignores that argument.
* The external pricing oracle (`litellm.completion_cost`) and the external
  completion provider are collaborators: they enter the model as explicit
  arguments (`Option Rat` for one oracle answer, `Nat → Except String
  CallSuccess` for the per-attempt provider outcome).
* Fallible Python code (raise) is `Except String`; a Python function that
  can fall off the end and return `None` gets an explicit constructor for
  that outcome.
-/

namespace Mirr

/-! ## Data model (src/llm/models.py) -/

/-- `Role` — the message-role enumeration (system / user / assistant). -/
inductive Role where
  | system
  | user
  | assistant
deriving DecidableEq

/-- The string value of a role, as in the Python `str`-valued enum. -/
def Role.val : Role → String
  | .system => "system"
  | .user => "user"
  | .assistant => "assistant"

/-- `Message` — one conversation message.  The source also carries a
timestamp and a metadata dict on each message; the claims under study
never read them, so the embedding keeps role and content. -/
structure Message where
  role : Role
  content : String
deriving DecidableEq

/-- `Usage` — token usage and cost information for one call. -/
structure Usage where
  prompt_tokens : Nat
  completion_tokens : Nat
  total_tokens : Nat
  prompt_cost : Rat
  completion_cost : Rat
  total_cost : Rat
  model : String
deriving DecidableEq

/-- `ModelConfig` — configuration for a specific model. -/
structure ModelConfig where
  name : String
  provider : String
  max_tokens : Option Nat := none
  temperature : Rat := 7/10
  top_p : Rat := 1
  stream : Bool := false
  timeout : Nat := 60
  retry_count : Nat := 3
  api_base : Option String := none
  api_key : Option String := none
  input_cost_per_1k : Option Rat := none
  output_cost_per_1k : Option Rat := none
deriving DecidableEq

/-- Python's `str.startswith(p)`: `p` is a prefix of the string.  Defined
on the character lists so that prefix facts are provable by list
induction. -/
def pyStartsWith (s p : String) : Bool :=
  p.data.isPrefixOf s.data

/-- `ModelConfig.litellm_model_name` — derive the provider-qualified model
name (src/llm/models.py lines 78-90): openai passes through; anthropic
prepends "claude-" unless present; google prepends "gemini/" unless
present; deepseek prepends "deepseek/" unless present; any other provider
passes through. -/
def ModelConfig.litellm_model_name (c : ModelConfig) : String :=
  if c.provider = "openai" then
    c.name
  else if c.provider = "anthropic" then
    if pyStartsWith c.name "claude-" then c.name else "claude-" ++ c.name
  else if c.provider = "google" then
    if pyStartsWith c.name "gemini/" then c.name else "gemini/" ++ c.name
  else if c.provider = "deepseek" then
    if pyStartsWith c.name "deepseek/" then c.name else "deepseek/" ++ c.name
  else
    c.name

/-- `MODEL_PRESETS` — the static registry of preset configurations,
in source order (src/llm/models.py lines 94-153). -/
def MODEL_PRESETS : List (String × ModelConfig) :=
  [ ("gpt-4",
      { name := "gpt-4", provider := "openai",
        input_cost_per_1k := some (3/100), output_cost_per_1k := some (6/100) }),
    ("gpt-4-turbo",
      { name := "gpt-4-turbo-preview", provider := "openai",
        input_cost_per_1k := some (1/100), output_cost_per_1k := some (3/100) }),
    ("gpt-3.5-turbo",
      { name := "gpt-3.5-turbo", provider := "openai",
        input_cost_per_1k := some (5/10000), output_cost_per_1k := some (15/10000) }),
    ("claude-3-opus",
      { name := "claude-3-opus-20240229", provider := "anthropic",
        max_tokens := some 4096,
        input_cost_per_1k := some (15/1000), output_cost_per_1k := some (75/1000) }),
    ("claude-3-sonnet",
      { name := "claude-3-sonnet-20240229", provider := "anthropic",
        max_tokens := some 4096,
        input_cost_per_1k := some (3/1000), output_cost_per_1k := some (15/1000) }),
    ("claude-3-haiku",
      { name := "claude-3-haiku-20240307", provider := "anthropic",
        max_tokens := some 4096,
        input_cost_per_1k := some (25/100000), output_cost_per_1k := some (125/100000) }),
    ("gemini-pro",
      { name := "gemini-pro", provider := "google",
        input_cost_per_1k := some (125/1000000), output_cost_per_1k := some (375/1000000) }),
    ("deepseek-coder",
      { name := "deepseek-coder", provider := "deepseek",
        input_cost_per_1k := some (1/10000), output_cost_per_1k := some (2/10000) }) ]

/-- Dictionary lookup in `MODEL_PRESETS` (`model in MODEL_PRESETS` /
`MODEL_PRESETS[model]`). -/
def presetLookup (model : String) : Option ModelConfig :=
  (MODEL_PRESETS.find? (fun p => p.1 = model)).map (fun p => p.2)

/-! ## Conversation history (src/llm/history.py) -/

/-- `ConversationHistory` in-memory state: the ordered message list and
the two metadata timestamps. -/
structure ConversationHistory where
  messages : List Message
  created_at : Nat
  last_updated : Nat
deriving DecidableEq

/-- `ConversationHistory.get_messages` (src/llm/history.py lines 47-51):
`if limit:` is a Python truthiness test, so `None` and `0` both fall
through to returning the whole list; a positive limit takes the slice
`messages[-limit:]`, i.e. the last `limit` messages. -/
def get_messages (msgs : List Message) (limit : Option Nat) : List Message :=
  match limit with
  | some n => if n ≠ 0 then msgs.drop (msgs.length - n) else msgs
  | none => msgs

/-- `ConversationHistory.add_message` (src/llm/history.py lines 37-45):
append the message and stamp `last_updated` with the current time. -/
def add_message (h : ConversationHistory) (role : Role) (content : String)
    (now : Nat) : ConversationHistory :=
  { h with messages := h.messages ++ [⟨role, content⟩], last_updated := now }

/-- `ConversationHistory.clear` (src/llm/history.py lines 58-61): drop all
messages and stamp `last_updated`. -/
def clear (h : ConversationHistory) (now : Nat) : ConversationHistory :=
  { h with messages := [], last_updated := now }

/-- The persisted history document (src/llm/history.py `save`/`load`):
metadata timestamps plus the message list. -/
structure HistoryFile where
  created_at : Nat
  last_updated : Nat
  messages : List Message
deriving DecidableEq

/-- `ConversationHistory.load` (src/llm/history.py lines 86-105): replace
the in-memory metadata wholesale with the document's metadata and rebuild
the message list from the document.  The source never consults the clock
here, so the `_now` tick is ignored: `last_updated` becomes whatever the
file carried. -/
def load (_h : ConversationHistory) (data : HistoryFile) (_now : Nat) :
    ConversationHistory :=
  { messages := data.messages,
    created_at := data.created_at,
    last_updated := data.last_updated }

/-- `ConversationHistory.estimate_tokens` (src/llm/history.py lines
123-129): total character count over all messages, floor-divided by 4. -/
def estimate_tokens (msgs : List Message) : Nat :=
  (msgs.map (fun m => m.content.length)).sum / 4

/-- Per-message estimated token cost (`len(msg.content) // 4`), as used
inside `truncate_to_token_limit`. -/
def msgTokens (m : Message) : Nat :=
  m.content.length / 4

/-- The truncation loop of `truncate_to_token_limit` (src/llm/history.py
lines 152-158): iterate over the non-system messages newest-first; a
message whose estimated cost fits the remaining budget is inserted at the
head of the retained non-system segment (`insert` at index
`len(system_messages)` resp. `0`) and its cost deducted; the first
message that does not fit breaks the loop.  `avail` is an `Int` because
the Python budget may go negative when the system messages alone exceed
`max_tokens`. -/
def truncGo (avail : Int) (kept : List Message) : List Message → List Message
  | [] => kept
  | m :: rest =>
      if (msgTokens m : Int) ≤ avail then
        truncGo (avail - msgTokens m) (m :: kept) rest
      else
        kept

/-- `ConversationHistory.truncate_to_token_limit` on the message list
(src/llm/history.py lines 131-160): no-op when the estimate already fits;
otherwise keep the system messages (when `keep_system`) in full and in
order, then greedily keep non-system messages newest-first within the
remaining budget. -/
def truncate_messages (max_tokens : Int) (keep_system : Bool)
    (msgs : List Message) : List Message :=
  if (estimate_tokens msgs : Int) ≤ max_tokens then
    msgs
  else
    let system_messages := msgs.filter (fun m => m.role = Role.system)
    let other_messages := msgs.filter (fun m => ¬ m.role = Role.system)
    if keep_system then
      system_messages ++
        truncGo (max_tokens - ((system_messages.map msgTokens).sum : Int)) []
          other_messages.reverse
    else
      truncGo max_tokens [] other_messages.reverse

/-- `ConversationHistory.truncate_to_token_limit` on the full state: the
source reassigns `self.messages` and never touches `self.metadata`, so
the `_now` tick is ignored and `last_updated` keeps its old value. -/
def truncate_to_token_limit (h : ConversationHistory) (max_tokens : Int)
    (keep_system : Bool) (_now : Nat) : ConversationHistory :=
  { h with messages := truncate_messages max_tokens keep_system h.messages }

/-! ## LLM client (src/llm/client.py) -/

/-- The raw usage record returned by the provider (`response.usage`, read
with `usage_info.get(key, default)`), so each counter may be absent. -/
structure UsageInfo where
  prompt_tokens : Option Nat
  completion_tokens : Option Nat
  total_tokens : Option Nat
deriving DecidableEq

/-- `LLMClient._calculate_cost` (src/llm/client.py lines 112-141).

The `oracle` argument models one answer of the external pricing oracle
(`litellm.completion_cost`): `some c` means "would return total cost c",
`none` means "would raise".  In the source, however, the `try` block names
`completion_cost`, which is also the name assigned on lines 126 and 130 of
the same function body; Python therefore treats `completion_cost` as a
local variable throughout `_calculate_cost`, and line 120 raises
`UnboundLocalError` before the oracle is ever invoked.  The bare `except:`
catches it, so the fallback branch runs unconditionally: every field is
locally computed and the oracle answer is never consulted.  The embedding
reproduces that behaviour (the function is total: it never raises). -/
def calculate_cost (cfg : ModelConfig) (_oracle : Option Rat)
    (info : UsageInfo) : Usage :=
  let prompt_tokens := info.prompt_tokens.getD 0
  let completion_tokens := info.completion_tokens.getD 0
  let total_tokens := info.total_tokens.getD (prompt_tokens + completion_tokens)
  let prompt_cost := ((prompt_tokens : Rat) / 1000) * (cfg.input_cost_per_1k.getD 0)
  let completion_cost := ((completion_tokens : Rat) / 1000) * (cfg.output_cost_per_1k.getD 0)
  let total_cost := prompt_cost + completion_cost
  { prompt_tokens := prompt_tokens,
    completion_tokens := completion_tokens,
    total_tokens := total_tokens,
    prompt_cost := prompt_cost,
    completion_cost := completion_cost,
    total_cost := total_cost,
    model := cfg.litellm_model_name }

/-- The cost computation the spec describes (section 4.1): when the
pricing oracle succeeds its answer becomes `total_cost` while the
prompt/completion breakdown stays local; when it fails, everything is
local.  Kept alongside `calculate_cost` to exhibit where the source
diverges from it. -/
def calculate_cost_aim (cfg : ModelConfig) (oracle : Option Rat)
    (info : UsageInfo) : Usage :=
  let prompt_tokens := info.prompt_tokens.getD 0
  let completion_tokens := info.completion_tokens.getD 0
  let total_tokens := info.total_tokens.getD (prompt_tokens + completion_tokens)
  let prompt_cost := ((prompt_tokens : Rat) / 1000) * (cfg.input_cost_per_1k.getD 0)
  let completion_cost := ((completion_tokens : Rat) / 1000) * (cfg.output_cost_per_1k.getD 0)
  let total_cost := oracle.getD (prompt_cost + completion_cost)
  { prompt_tokens := prompt_tokens,
    completion_tokens := completion_tokens,
    total_tokens := total_tokens,
    prompt_cost := prompt_cost,
    completion_cost := completion_cost,
    total_cost := total_cost,
    model := cfg.litellm_model_name }

/-- The session accumulator `self.session_usage` (src/llm/client.py lines
66-74). -/
structure SessionUsage where
  total_tokens : Nat
  input_tokens : Nat
  output_tokens : Nat
  total_cost : Rat
  input_cost : Rat
  output_cost : Rat
  call_count : Nat
deriving DecidableEq

/-- The freshly initialised accumulator (all zero). -/
def initSession : SessionUsage :=
  { total_tokens := 0, input_tokens := 0, output_tokens := 0,
    total_cost := 0, input_cost := 0, output_cost := 0, call_count := 0 }

/-- The success-path accumulator update (src/llm/client.py lines 219-225):
add this call's usage to every counter and bump `call_count`. -/
def updateSession (s : SessionUsage) (u : Usage) : SessionUsage :=
  { total_tokens := s.total_tokens + u.total_tokens,
    input_tokens := s.input_tokens + u.prompt_tokens,
    output_tokens := s.output_tokens + u.completion_tokens,
    total_cost := s.total_cost + u.total_cost,
    input_cost := s.input_cost + u.prompt_cost,
    output_cost := s.output_cost + u.completion_cost,
    call_count := s.call_count + 1 }

/-- One successful provider response: the assistant content and the raw
usage counters (`response.choices[0].message.content`, `response.usage`). -/
structure CallSuccess where
  content : String
  usage : UsageInfo
deriving DecidableEq

/-- The caller-facing `messages` argument of `chat`: a bare string or a
list of messages (a `Message` object and a role/content dict normalize to
the same shape via `to_dict`). -/
inductive ChatInput where
  | str (s : String)
  | msgs (l : List Message)
deriving DecidableEq

/-- Message normalization at the top of `chat` (src/llm/client.py lines
162-181): prepend the optional system prompt as a system-role entry, then
a bare string becomes one user message while a list passes through. -/
def formatMessages (system_prompt : Option String) (input : ChatInput) :
    List Message :=
  (match system_prompt with
   | some sp => [⟨Role.system, sp⟩]
   | none => []) ++
  (match input with
   | .str s => [⟨Role.user, s⟩]
   | .msgs l => l)

/-- The messages appended to History on the success path (src/llm/client.py
lines 239-243): every outbound formatted message whose role is not
`system`, then the produced assistant message. -/
def historyAppends (formatted : List Message) (assistant_content : String) :
    List Message :=
  formatted.filter (fun m => ¬ m.role = Role.system) ++
    [⟨Role.assistant, assistant_content⟩]

/-- The outcome of one `chat` call: a returned `Response` (content plus
usage), a raised terminal `RuntimeError`, or — when the retry loop body
never runs — Python's implicit `None` return. -/
inductive ChatResult where
  | ok (content : String) (usage : Usage)
  | err (msg : String)
  | noReturn
deriving DecidableEq

/-- The retry loop of `chat` (src/llm/client.py lines 207-266).
`remaining` counts the loop iterations still available (initially
`retry_count`) and `attempt` the current index; the guard
`attempt < retry_count - 1` of the source is `remaining ≠ 1` here.  On a
successful attempt the session accumulator is updated once and the
normalized non-system messages plus the assistant message are appended to
the history; on exhaustion a `RuntimeError` is raised with the accumulator
and history untouched (the error path only writes an audit-log file). -/
def chatGo (cfg : ModelConfig) (oracle : Option Rat)
    (provider : Nat → Except String CallSuccess)
    (formatted : List Message) (sess : SessionUsage) (hist : List Message) :
    Nat → Nat → ChatResult × SessionUsage × List Message
  | 0, _ => (ChatResult.noReturn, sess, hist)
  | remaining + 1, attempt =>
      match provider attempt with
      | Except.ok cs =>
          let usage := calculate_cost cfg oracle cs.usage
          (ChatResult.ok cs.content usage,
           updateSession sess usage,
           hist ++ historyAppends formatted cs.content)
      | Except.error e =>
          if remaining = 0 then
            (ChatResult.err ("LLM call failed after " ++
                toString cfg.retry_count ++ " attempts: " ++ e),
             sess, hist)
          else
            chatGo cfg oracle provider formatted sess hist remaining (attempt + 1)

/-- `LLMClient.chat` (src/llm/client.py lines 143-266), restricted to the
state the claims observe: the session accumulator and the history message
list.  The provider and pricing oracle are explicit collaborators. -/
def chat (cfg : ModelConfig) (oracle : Option Rat)
    (provider : Nat → Except String CallSuccess)
    (system_prompt : Option String) (input : ChatInput)
    (sess : SessionUsage) (hist : List Message) :
    ChatResult × SessionUsage × List Message :=
  chatGo cfg oracle provider (formatMessages system_prompt input) sess hist
    cfg.retry_count 0

/-- `LLMClient.switch_model` (src/llm/client.py lines 295-300): a known
identifier swaps the active config, an unknown one raises `ValueError`
with a message naming the model and listing the registry's keys. -/
def unknownModelMessage (model : String) : String :=
  "Unknown model: " ++ model ++ ". Available: ['" ++
    String.intercalate "', '" (MODEL_PRESETS.map (fun p => p.1)) ++ "']"

/-- `LLMClient.switch_model` as a fallible config selection. -/
def switch_model (model : String) : Except String ModelConfig :=
  match presetLookup model with
  | some c => Except.ok c
  | none => Except.error (unknownModelMessage model)

/-- Config selection in `LLMClient.__init__` (src/llm/client.py lines
49-57): an explicit config wins; else a model name that is a known preset
key selects that preset; else the client silently falls back to the preset
named by the `DEFAULT_MODEL` environment variable (modelled as the
`default_model` argument), and to `"gemini-pro"` when even that name is
unknown.  No branch raises. -/
def initConfig (config : Option ModelConfig) (model : Option String)
    (default_model : String) : ModelConfig :=
  let fallback :=
    (presetLookup default_model).getD
      ((presetLookup "gemini-pro").getD { name := "gemini-pro", provider := "google" })
  match config with
  | some c => c
  | none =>
      match model with
      | some m =>
          match presetLookup m with
          | some c => c
          | none => fallback
      | none => fallback

/-! ## Derived notions used by the statements -/

/-- The greedy newest-first selection the spec describes for truncation:
walking a list of messages (already newest-first), keep each message whose
estimated cost fits the remaining budget and stop at the first one that
does not.  `truncGo` is proved below to be this selection followed by a
reversal back into oldest-first order. -/
def greedyTake : Int → List Message → List Message
  | _, [] => []
  | budget, m :: rest =>
      if (msgTokens m : Int) ≤ budget then
        m :: greedyTake (budget - msgTokens m) rest
      else
        []

/-- Run a sequence of `chat` calls against one client: each element of
`calls` is the provider behaviour seen by that call; the session
accumulator and history thread through.  Returns the outcomes in order
together with the final accumulator and history. -/
def runCalls (cfg : ModelConfig) (oracle : Option Rat)
    (system_prompt : Option String) (input : ChatInput) :
    List (Nat → Except String CallSuccess) → SessionUsage → List Message →
      List ChatResult × SessionUsage × List Message
  | [], sess, hist => ([], sess, hist)
  | p :: ps, sess, hist =>
      let r := chat cfg oracle p system_prompt input sess hist
      let rest := runCalls cfg oracle system_prompt input ps r.2.1 r.2.2
      (r.1 :: rest.1, rest.2)

/-- Whether a chat outcome is a returned `Response`. -/
def ChatResult.isOk : ChatResult → Bool
  | .ok _ _ => true
  | _ => false

/-- Whether a chat outcome is a raised terminal error. -/
def ChatResult.isErr : ChatResult → Bool
  | .err _ => true
  | _ => false

/-- The total tokens reported by a successful outcome (0 otherwise). -/
def ChatResult.tokensOf : ChatResult → Nat
  | .ok _ u => u.total_tokens
  | _ => 0

/-- The total cost reported by a successful outcome (0 otherwise). -/
def ChatResult.costOf : ChatResult → Rat
  | .ok _ u => u.total_cost
  | _ => 0

/-- The assistant content of a successful outcome (empty otherwise). -/
def ChatResult.contentOf : ChatResult → String
  | .ok c _ => c
  | _ => ""

/-! ## Helper lemmas -/

theorem pyStartsWith_of_append (p s : String) : pyStartsWith (p ++ s) p = true := by
  simp [pyStartsWith, List.isPrefixOf_iff_prefix]

theorem pyStartsWith_qualified (n pref : String) :
    pyStartsWith (if pyStartsWith n pref then n else pref ++ n) pref = true := by
  by_cases h : pyStartsWith n pref = true
  · simp [h]
  · simp [h, pyStartsWith_of_append]

theorem truncGo_eq_greedyTake (l : List Message) :
    ∀ (avail : Int) (kept : List Message),
      truncGo avail kept l = (greedyTake avail l).reverse ++ kept := by
  induction l with
  | nil => intro avail kept; rfl
  | cons m rest ih =>
      intro avail kept
      by_cases h : (msgTokens m : Int) ≤ avail
      · simp [truncGo, greedyTake, h, ih]
      · simp [truncGo, greedyTake, h]

theorem greedyTake_sublist (l : List Message) :
    ∀ b : Int, List.Sublist (greedyTake b l) l := by
  induction l with
  | nil => intro b; simp [greedyTake]
  | cons m rest ih =>
      intro b
      by_cases h : (msgTokens m : Int) ≤ b
      · simpa [greedyTake, h] using ih (b - msgTokens m)
      · simp [greedyTake, h]

theorem greedyTake_idem (l : List Message) :
    ∀ b : Int, greedyTake b (greedyTake b l) = greedyTake b l := by
  induction l with
  | nil => intro b; rfl
  | cons m rest ih =>
      intro b
      by_cases h : (msgTokens m : Int) ≤ b
      · simp [greedyTake, h, ih]
      · simp [greedyTake, h]

/-- Every run of the retry loop ends in one of three shapes: a success
that updates the accumulator once and appends to the history once, a
terminal error that leaves both untouched, or (only when the loop body
never runs) the implicit `None` return, also leaving both untouched. -/
theorem chatGo_cases (cfg : ModelConfig) (oracle : Option Rat)
    (provider : Nat → Except String CallSuccess) (formatted : List Message)
    (sess : SessionUsage) (hist : List Message) :
    ∀ remaining attempt : Nat,
      (∃ c u, chatGo cfg oracle provider formatted sess hist remaining attempt =
        (ChatResult.ok c u, updateSession sess u, hist ++ historyAppends formatted c)) ∨
      (∃ e, chatGo cfg oracle provider formatted sess hist remaining attempt =
        (ChatResult.err e, sess, hist)) ∨
      chatGo cfg oracle provider formatted sess hist remaining attempt =
        (ChatResult.noReturn, sess, hist) := by
  intro remaining
  induction remaining with
  | zero => intro attempt; right; right; rfl
  | succ rem ih =>
      intro attempt
      cases hp : provider attempt with
      | ok cs =>
          left
          exact ⟨cs.content, calculate_cost cfg oracle cs.usage, by simp [chatGo, hp]⟩
      | error e =>
          by_cases hr : rem = 0
          · right; left
            exact ⟨"LLM call failed after " ++ toString cfg.retry_count ++
              " attempts: " ++ e, by simp [chatGo, hp, hr]⟩
          · have hstep : chatGo cfg oracle provider formatted sess hist (rem + 1) attempt =
                chatGo cfg oracle provider formatted sess hist rem (attempt + 1) := by
              simp [chatGo, hp, hr]
            rw [hstep]
            exact ih (attempt + 1)

/-- The same trichotomy at the level of `chat`. -/
theorem chat_cases (cfg : ModelConfig) (oracle : Option Rat)
    (provider : Nat → Except String CallSuccess) (sp : Option String)
    (inp : ChatInput) (sess : SessionUsage) (hist : List Message) :
    (∃ c u, chat cfg oracle provider sp inp sess hist =
      (ChatResult.ok c u, updateSession sess u,
        hist ++ historyAppends (formatMessages sp inp) c)) ∨
    (∃ e, chat cfg oracle provider sp inp sess hist = (ChatResult.err e, sess, hist)) ∨
    chat cfg oracle provider sp inp sess hist = (ChatResult.noReturn, sess, hist) :=
  chatGo_cases cfg oracle provider (formatMessages sp inp) sess hist cfg.retry_count 0

/-- Accumulator bookkeeping over a run of calls, from an arbitrary
starting accumulator: when every outcome is a success, the final counters
are the starting counters plus the per-call sums, and `call_count` grows
by the number of calls. -/
theorem runCalls_sums (cfg : ModelConfig) (oracle : Option Rat)
    (sp : Option String) (inp : ChatInput) :
    ∀ (calls : List (Nat → Except String CallSuccess)) (sess : SessionUsage)
      (hist : List Message),
      (runCalls cfg oracle sp inp calls sess hist).1.all ChatResult.isOk = true →
        (runCalls cfg oracle sp inp calls sess hist).2.1.total_tokens =
          sess.total_tokens +
            ((runCalls cfg oracle sp inp calls sess hist).1.map ChatResult.tokensOf).sum ∧
        (runCalls cfg oracle sp inp calls sess hist).2.1.total_cost =
          sess.total_cost +
            ((runCalls cfg oracle sp inp calls sess hist).1.map ChatResult.costOf).sum ∧
        (runCalls cfg oracle sp inp calls sess hist).2.1.call_count =
          sess.call_count +
            (runCalls cfg oracle sp inp calls sess hist).1.length := by
  intro calls
  induction calls with
  | nil =>
      intro sess hist _
      refine ⟨by simp [runCalls], by simp [runCalls], by simp [runCalls]⟩
  | cons p ps ih =>
      intro sess hist hall
      rcases chat_cases cfg oracle p sp inp sess hist with
        ⟨c, u, heq⟩ | ⟨e, heq⟩ | heq
      · have hall2 :
            (runCalls cfg oracle sp inp ps (updateSession sess u)
              (hist ++ historyAppends (formatMessages sp inp) c)).1.all
                ChatResult.isOk = true := by
          simp only [runCalls, heq, List.all_cons] at hall
          exact (Bool.and_eq_true_iff.mp hall).2
        have hrec := ih (updateSession sess u)
          (hist ++ historyAppends (formatMessages sp inp) c) hall2
        refine ⟨?_, ?_, ?_⟩
        · simp only [runCalls, heq, List.map_cons, List.sum_cons]
          rw [hrec.1]
          simp [updateSession, ChatResult.tokensOf]
          omega
        · simp only [runCalls, heq, List.map_cons, List.sum_cons]
          rw [hrec.2.1]
          simp [updateSession, ChatResult.costOf]
          ring
        · simp only [runCalls, heq, List.length_cons]
          rw [hrec.2.2]
          simp [updateSession]
          omega
      · exfalso
        simp only [runCalls, heq, List.all_cons] at hall
        exact absurd (Bool.and_eq_true_iff.mp hall).1 (by simp [ChatResult.isErr, ChatResult.isOk])
      · exfalso
        simp only [runCalls, heq, List.all_cons] at hall
        exact absurd (Bool.and_eq_true_iff.mp hall).1 (by simp [ChatResult.isOk])

/-- Closed form of `truncate_messages` with `keep_system = true`: a no-op
under the estimate, otherwise the system messages followed by the greedy
newest-first selection of non-system messages, reversed back into original
order. -/
theorem truncate_messages_eq (msgs : List Message) (T : Int) :
    truncate_messages T true msgs =
      if (estimate_tokens msgs : Int) ≤ T then msgs
      else
        msgs.filter (fun m => m.role = Role.system) ++
          (greedyTake
              (T - (((msgs.filter (fun m => m.role = Role.system)).map msgTokens).sum : Int))
              (msgs.filter (fun m => ¬ m.role = Role.system)).reverse).reverse := by
  by_cases h : (estimate_tokens msgs : Int) ≤ T
  · simp [truncate_messages, h]
  · simp [truncate_messages, h, truncGo_eq_greedyTake]

/-! ## Claim theorems -/

/-- C3: `truncate_to_token_limit(max_tokens, keep_system=true)` leaves the
message list unchanged when the estimate is at most `max_tokens`;
otherwise the result is all system messages in original order at the
front, followed by the greedy newest-first selection of non-system
messages under the remaining budget (`greedyTake` keeps each message whose
`content.length / 4` fits and stops at the first that would overflow),
restored to original oldest-to-newest order — and that retained segment is
a subsequence of the original non-system messages. -/
theorem claim3_truncate_greedy_characterization (msgs : List Message) (max_tokens : Int) :
    truncate_messages max_tokens true msgs =
      (if (estimate_tokens msgs : Int) ≤ max_tokens then msgs
       else
         msgs.filter (fun m => m.role = Role.system) ++
           (greedyTake
              (max_tokens -
                (((msgs.filter (fun m => m.role = Role.system)).map msgTokens).sum : Int))
              (msgs.filter (fun m => ¬ m.role = Role.system)).reverse).reverse) ∧
    List.Sublist
      ((greedyTake
          (max_tokens -
            (((msgs.filter (fun m => m.role = Role.system)).map msgTokens).sum : Int))
          (msgs.filter (fun m => ¬ m.role = Role.system)).reverse).reverse)
      (msgs.filter (fun m => ¬ m.role = Role.system)) := by
  constructor
  · exact truncate_messages_eq msgs max_tokens
  · have hs :=
      (greedyTake_sublist (msgs.filter (fun m => ¬ m.role = Role.system)).reverse
        (max_tokens -
          (((msgs.filter (fun m => m.role = Role.system)).map msgTokens).sum : Int))).reverse
    simpa using hs

/-- C7: truncation with `keep_system = true` is idempotent on the history
state — running it twice in succession yields the same state as running it
once, for every history, budget, and mutation times. -/
theorem claim7_truncate_idempotent (h : ConversationHistory) (T : Int)
    (now1 now2 : Nat) :
    truncate_to_token_limit (truncate_to_token_limit h T true now1) T true now2 =
      truncate_to_token_limit h T true now1 := by
  have key : ∀ msgs : List Message,
      truncate_messages T true (truncate_messages T true msgs) =
        truncate_messages T true msgs := by
    intro msgs
    by_cases hslim : (estimate_tokens msgs : Int) ≤ T
    · rw [truncate_messages_eq msgs T, if_pos hslim, truncate_messages_eq msgs T,
        if_pos hslim]
    · rw [truncate_messages_eq msgs T, if_neg hslim]
      have hsysK :
          (msgs.filter (fun m => m.role = Role.system)).filter
              (fun m => m.role = Role.system) =
            msgs.filter (fun m => m.role = Role.system) := by
        rw [List.filter_eq_self]
        intro a ha
        exact (List.mem_filter.mp ha).2
      have hsysO :
          (msgs.filter (fun m => m.role = Role.system)).filter
              (fun m => ¬ m.role = Role.system) = [] := by
        rw [List.filter_eq_nil_iff]
        intro a ha hcontra
        have := (List.mem_filter.mp ha).2
        simp at this hcontra
        exact hcontra this
      have hmemK : ∀ x ∈ (greedyTake
            (T - (((msgs.filter (fun m => m.role = Role.system)).map msgTokens).sum : Int))
            (msgs.filter (fun m => ¬ m.role = Role.system)).reverse).reverse,
          x ∈ msgs.filter (fun m => ¬ m.role = Role.system) := by
        intro x hx
        rw [List.mem_reverse] at hx
        have hx2 := (greedyTake_sublist _ _).subset hx
        rw [List.mem_reverse] at hx2
        exact hx2
      have hkO :
          ((greedyTake
              (T - (((msgs.filter (fun m => m.role = Role.system)).map msgTokens).sum : Int))
              (msgs.filter (fun m => ¬ m.role = Role.system)).reverse).reverse).filter
              (fun m => ¬ m.role = Role.system) =
            (greedyTake
              (T - (((msgs.filter (fun m => m.role = Role.system)).map msgTokens).sum : Int))
              (msgs.filter (fun m => ¬ m.role = Role.system)).reverse).reverse := by
        rw [List.filter_eq_self]
        intro a ha
        exact (List.mem_filter.mp (hmemK a ha)).2
      have hkS :
          ((greedyTake
              (T - (((msgs.filter (fun m => m.role = Role.system)).map msgTokens).sum : Int))
              (msgs.filter (fun m => ¬ m.role = Role.system)).reverse).reverse).filter
              (fun m => m.role = Role.system) = [] := by
        rw [List.filter_eq_nil_iff]
        intro a ha hcontra
        have := (List.mem_filter.mp (hmemK a ha)).2
        simp at this hcontra
        exact this hcontra
      rw [truncate_messages_eq]
      by_cases h2 : (estimate_tokens
          (msgs.filter (fun m => m.role = Role.system) ++
            (greedyTake
              (T - (((msgs.filter (fun m => m.role = Role.system)).map msgTokens).sum : Int))
              (msgs.filter (fun m => ¬ m.role = Role.system)).reverse).reverse) : Int) ≤ T
      · rw [if_pos h2]
      · rw [if_neg h2, List.filter_append, List.filter_append, hsysK, hsysO, hkS, hkO,
          List.append_nil, List.nil_append, List.reverse_reverse, greedyTake_idem]
  simp only [truncate_to_token_limit]
  rw [key h.messages]


/-- C2: the session accumulator is updated exactly once per successful
chat call: starting from a fresh accumulator, after a run of calls that
all succeed, `total_tokens` is the sum of the calls' total tokens,
`total_cost` the sum of their total costs, and `call_count` the number of
calls; and a chat call that exhausts all retries (a raised terminal
error) leaves every accumulator field unchanged. -/
theorem claim2_session_accumulator (cfg : ModelConfig) (oracle : Option Rat)
    (sp : Option String) (inp : ChatInput)
    (calls : List (Nat → Except String CallSuccess)) (h0 : List Message)
    (p : Nat → Except String CallSuccess) (sess : SessionUsage)
    (hist : List Message) :
    ((runCalls cfg oracle sp inp calls initSession h0).1.all ChatResult.isOk = true →
      (runCalls cfg oracle sp inp calls initSession h0).2.1.total_tokens =
        ((runCalls cfg oracle sp inp calls initSession h0).1.map ChatResult.tokensOf).sum ∧
      (runCalls cfg oracle sp inp calls initSession h0).2.1.total_cost =
        ((runCalls cfg oracle sp inp calls initSession h0).1.map ChatResult.costOf).sum ∧
      (runCalls cfg oracle sp inp calls initSession h0).2.1.call_count =
        (runCalls cfg oracle sp inp calls initSession h0).1.length) ∧
    ((chat cfg oracle p sp inp sess hist).1.isErr = true →
      (chat cfg oracle p sp inp sess hist).2.1 = sess) := by
  constructor
  · intro hall
    have := runCalls_sums cfg oracle sp inp calls initSession h0 hall
    simpa [initSession] using this
  · intro herr
    rcases chat_cases cfg oracle p sp inp sess hist with ⟨c, u, heq⟩ | ⟨e, heq⟩ | heq
    · rw [heq] at herr
      simp [ChatResult.isOk, ChatResult.isErr] at herr
    · rw [heq]
    · rw [heq] at herr
      simp [ChatResult.isErr] at herr

/-- C2 witness: a fresh session run through two successful calls
(3+5 tokens at 1/2 per-1k pricing, then an explicit total of 10 tokens)
accumulates 18 tokens, cost 16/1000, call count 2; and a call whose
provider always fails leaves a concrete non-zero accumulator untouched. -/
theorem claim2_session_accumulator_witness :
    ((runCalls ⟨"m", "openai", none, 7/10, 1, false, 60, 3, none, none, some 1, some 2⟩ none none (ChatInput.str "q") [fun _ => Except.ok ⟨"hi", ⟨some 3, some 5, none⟩⟩, fun _ => Except.ok ⟨"yo", ⟨some 1, some 1, some 10⟩⟩] initSession []).1.all ChatResult.isOk = true) ∧
    ((runCalls ⟨"m", "openai", none, 7/10, 1, false, 60, 3, none, none, some 1, some 2⟩ none none (ChatInput.str "q") [fun _ => Except.ok ⟨"hi", ⟨some 3, some 5, none⟩⟩, fun _ => Except.ok ⟨"yo", ⟨some 1, some 1, some 10⟩⟩] initSession []).2.1.total_tokens = ((runCalls ⟨"m", "openai", none, 7/10, 1, false, 60, 3, none, none, some 1, some 2⟩ none none (ChatInput.str "q") [fun _ => Except.ok ⟨"hi", ⟨some 3, some 5, none⟩⟩, fun _ => Except.ok ⟨"yo", ⟨some 1, some 1, some 10⟩⟩] initSession []).1.map ChatResult.tokensOf).sum ∧
     (runCalls ⟨"m", "openai", none, 7/10, 1, false, 60, 3, none, none, some 1, some 2⟩ none none (ChatInput.str "q") [fun _ => Except.ok ⟨"hi", ⟨some 3, some 5, none⟩⟩, fun _ => Except.ok ⟨"yo", ⟨some 1, some 1, some 10⟩⟩] initSession []).2.1.total_cost = ((runCalls ⟨"m", "openai", none, 7/10, 1, false, 60, 3, none, none, some 1, some 2⟩ none none (ChatInput.str "q") [fun _ => Except.ok ⟨"hi", ⟨some 3, some 5, none⟩⟩, fun _ => Except.ok ⟨"yo", ⟨some 1, some 1, some 10⟩⟩] initSession []).1.map ChatResult.costOf).sum ∧
     (runCalls ⟨"m", "openai", none, 7/10, 1, false, 60, 3, none, none, some 1, some 2⟩ none none (ChatInput.str "q") [fun _ => Except.ok ⟨"hi", ⟨some 3, some 5, none⟩⟩, fun _ => Except.ok ⟨"yo", ⟨some 1, some 1, some 10⟩⟩] initSession []).2.1.call_count = (runCalls ⟨"m", "openai", none, 7/10, 1, false, 60, 3, none, none, some 1, some 2⟩ none none (ChatInput.str "q") [fun _ => Except.ok ⟨"hi", ⟨some 3, some 5, none⟩⟩, fun _ => Except.ok ⟨"yo", ⟨some 1, some 1, some 10⟩⟩] initSession []).1.length) ∧
    ((chat ⟨"m", "openai", none, 7/10, 1, false, 60, 3, none, none, some 1, some 2⟩ none (fun _ => Except.error "boom") none (ChatInput.str "q") ⟨9, 4, 5, 7, 3, 4, 2⟩ []).1.isErr = true) ∧
    ((chat ⟨"m", "openai", none, 7/10, 1, false, 60, 3, none, none, some 1, some 2⟩ none (fun _ => Except.error "boom") none (ChatInput.str "q") ⟨9, 4, 5, 7, 3, 4, 2⟩ []).2.1 = ⟨9, 4, 5, 7, 3, 4, 2⟩) := by
  have hsums := (claim2_session_accumulator ⟨"m", "openai", none, 7/10, 1, false, 60, 3, none, none, some 1, some 2⟩ none none (ChatInput.str "q") [fun _ => Except.ok ⟨"hi", ⟨some 3, some 5, none⟩⟩, fun _ => Except.ok ⟨"yo", ⟨some 1, some 1, some 10⟩⟩] [] (fun _ => Except.error "boom") ⟨9, 4, 5, 7, 3, 4, 2⟩ []).1 (by decide)
  have herr := (claim2_session_accumulator ⟨"m", "openai", none, 7/10, 1, false, 60, 3, none, none, some 1, some 2⟩ none none (ChatInput.str "q") [fun _ => Except.ok ⟨"hi", ⟨some 3, some 5, none⟩⟩, fun _ => Except.ok ⟨"yo", ⟨some 1, some 1, some 10⟩⟩] [] (fun _ => Except.error "boom") ⟨9, 4, 5, 7, 3, 4, 2⟩ []).2 (by decide)
  exact ⟨by decide, hsums, by decide, herr⟩

/-- C6 counterexample: a successful chat call whose `messages` argument
is a list of two user messages appends three messages to the history (the
two outbound user messages plus the assistant reply), not exactly two —
so "exactly two appended messages" fails for list-shaped inputs. -/
theorem claim6_counterexample :
    ((chat ⟨"m", "openai", none, 7/10, 1, false, 60, 3, none, none, none, none⟩ none (fun _ => Except.ok ⟨"reply", ⟨some 1, some 1, none⟩⟩) none (ChatInput.msgs [⟨Role.user, "a"⟩, ⟨Role.user, "b"⟩]) initSession []).2.2).length = 3 ∧
    ¬ ((chat ⟨"m", "openai", none, 7/10, 1, false, 60, 3, none, none, none, none⟩ none (fun _ => Except.ok ⟨"reply", ⟨some 1, some 1, none⟩⟩) none (ChatInput.msgs [⟨Role.user, "a"⟩, ⟨Role.user, "b"⟩]) initSession []).2.2).length = 2 := by
  constructor
  · decide
  · decide

/-- C6 amended: a successful chat call performs exactly one history
mutation, appending all non-system normalized outbound messages followed
by the produced assistant message (exactly two appended messages only in
the single-string case); no system-role message is ever persisted; and a
call that does not succeed leaves the history unchanged. -/
theorem claim6_history_appends (cfg : ModelConfig) (oracle : Option Rat)
    (provider : Nat → Except String CallSuccess) (sp : Option String)
    (inp : ChatInput) (sess : SessionUsage) (hist : List Message) :
    ((chat cfg oracle provider sp inp sess hist).1.isOk = true →
      (chat cfg oracle provider sp inp sess hist).2.2 =
        hist ++ historyAppends (formatMessages sp inp)
          ((chat cfg oracle provider sp inp sess hist).1.contentOf)) ∧
    (∀ c : String, ∀ m ∈ historyAppends (formatMessages sp inp) c,
      ¬ m.role = Role.system) ∧
    (∀ c s : String,
      (historyAppends (formatMessages sp (ChatInput.str s)) c).length = 2) ∧
    ((chat cfg oracle provider sp inp sess hist).1.isOk = false →
      (chat cfg oracle provider sp inp sess hist).2.2 = hist) := by
  refine ⟨?_, ?_, ?_, ?_⟩
  · intro hok
    rcases chat_cases cfg oracle provider sp inp sess hist with
      ⟨c, u, heq⟩ | ⟨e, heq⟩ | heq
    · rw [heq]
      simp [ChatResult.contentOf]
    · rw [heq] at hok
      simp [ChatResult.isOk] at hok
    · rw [heq] at hok
      simp [ChatResult.isOk] at hok
  · intro c m hm
    rcases List.mem_append.mp hm with hf | ha
    · have := (List.mem_filter.mp hf).2
      simpa using this
    · rw [List.mem_singleton.mp ha]
      simp
  · intro c s
    cases sp with
    | none => simp [historyAppends, formatMessages]
    | some spv => simp [historyAppends, formatMessages]
  · intro hnot
    rcases chat_cases cfg oracle provider sp inp sess hist with
      ⟨c, u, heq⟩ | ⟨e, heq⟩ | heq
    · rw [heq] at hnot
      simp [ChatResult.isOk] at hnot
    · rw [heq]
    · rw [heq]

/-- C6 witness: the amended claim at concrete inputs — a call with a
system prompt and a single-string message succeeds and appends exactly the
user message and the assistant reply; the same client with an
always-failing provider leaves a concrete history unchanged. -/
theorem claim6_history_appends_witness :
    ((chat ⟨"m", "openai", none, 7/10, 1, false, 60, 3, none, none, none, none⟩ none (fun _ => Except.ok ⟨"reply", ⟨some 1, some 1, none⟩⟩) (some "sys") (ChatInput.str "hello") initSession [⟨Role.user, "old"⟩]).1.isOk = true) ∧
    ((chat ⟨"m", "openai", none, 7/10, 1, false, 60, 3, none, none, none, none⟩ none (fun _ => Except.ok ⟨"reply", ⟨some 1, some 1, none⟩⟩) (some "sys") (ChatInput.str "hello") initSession [⟨Role.user, "old"⟩]).2.2 =
      [⟨Role.user, "old"⟩] ++ historyAppends (formatMessages (some "sys") (ChatInput.str "hello")) ((chat ⟨"m", "openai", none, 7/10, 1, false, 60, 3, none, none, none, none⟩ none (fun _ => Except.ok ⟨"reply", ⟨some 1, some 1, none⟩⟩) (some "sys") (ChatInput.str "hello") initSession [⟨Role.user, "old"⟩]).1.contentOf)) ∧
    (∀ m ∈ historyAppends (formatMessages (some "sys") (ChatInput.str "hello")) "reply",
      ¬ m.role = Role.system) ∧
    (historyAppends (formatMessages (some "sys") (ChatInput.str "hello")) "reply").length = 2 ∧
    ((chat ⟨"m", "openai", none, 7/10, 1, false, 60, 3, none, none, none, none⟩ none (fun _ => Except.error "down") (some "sys") (ChatInput.str "hello") initSession [⟨Role.user, "old"⟩]).1.isOk = false) ∧
    ((chat ⟨"m", "openai", none, 7/10, 1, false, 60, 3, none, none, none, none⟩ none (fun _ => Except.error "down") (some "sys") (ChatInput.str "hello") initSession [⟨Role.user, "old"⟩]).2.2 = [⟨Role.user, "old"⟩]) := by
  have hok := (claim6_history_appends ⟨"m", "openai", none, 7/10, 1, false, 60, 3, none, none, none, none⟩ none (fun _ => Except.ok ⟨"reply", ⟨some 1, some 1, none⟩⟩) (some "sys") (ChatInput.str "hello") initSession [⟨Role.user, "old"⟩]).1 (by decide)
  have hsys := (claim6_history_appends ⟨"m", "openai", none, 7/10, 1, false, 60, 3, none, none, none, none⟩ none (fun _ => Except.ok ⟨"reply", ⟨some 1, some 1, none⟩⟩) (some "sys") (ChatInput.str "hello") initSession [⟨Role.user, "old"⟩]).2.1 "reply"
  have hlen := (claim6_history_appends ⟨"m", "openai", none, 7/10, 1, false, 60, 3, none, none, none, none⟩ none (fun _ => Except.ok ⟨"reply", ⟨some 1, some 1, none⟩⟩) (some "sys") (ChatInput.str "hello") initSession [⟨Role.user, "old"⟩]).2.2.1 "reply" "hello"
  have hfail := (claim6_history_appends ⟨"m", "openai", none, 7/10, 1, false, 60, 3, none, none, none, none⟩ none (fun _ => Except.error "down") (some "sys") (ChatInput.str "hello") initSession [⟨Role.user, "old"⟩]).2.2.2 (by decide)
  exact ⟨by decide, hok, hsys, hlen, by decide, hfail⟩

/-- C9: with `retry_count = 0` (violating the spec's `retry_count ≥ 1`
precondition) the retry loop body never runs: `chat` returns the implicit
`None` (neither a `Response` nor a raised error), the accumulator and
history are untouched, and the outcome is independent of the provider
(no provider attempt is consulted). -/
theorem claim9_zero_retry_count (cfg : ModelConfig) (hrc : cfg.retry_count = 0)
    (oracle : Option Rat) (p q : Nat → Except String CallSuccess)
    (sp : Option String) (inp : ChatInput) (sess : SessionUsage)
    (hist : List Message) :
    chat cfg oracle p sp inp sess hist = (ChatResult.noReturn, sess, hist) ∧
    chat cfg oracle p sp inp sess hist = chat cfg oracle q sp inp sess hist := by
  unfold chat
  rw [hrc]
  exact ⟨rfl, rfl⟩

/-- C9 witness: a concrete config with `retry_count = 0` — `chat` returns
the `None` outcome with state untouched, identically for an always-failing
and an always-succeeding provider. -/
theorem claim9_zero_retry_count_witness :
    (ModelConfig.retry_count ⟨"m", "openai", none, 7/10, 1, false, 60, 0, none, none, none, none⟩ = 0) ∧
    (chat ⟨"m", "openai", none, 7/10, 1, false, 60, 0, none, none, none, none⟩ none (fun _ => Except.error "down") none (ChatInput.str "hello") initSession [] = (ChatResult.noReturn, initSession, [])) ∧
    (chat ⟨"m", "openai", none, 7/10, 1, false, 60, 0, none, none, none, none⟩ none (fun _ => Except.error "down") none (ChatInput.str "hello") initSession [] =
      chat ⟨"m", "openai", none, 7/10, 1, false, 60, 0, none, none, none, none⟩ none (fun _ => Except.ok ⟨"reply", ⟨some 1, some 1, none⟩⟩) none (ChatInput.str "hello") initSession []) := by
  have h := claim9_zero_retry_count ⟨"m", "openai", none, 7/10, 1, false, 60, 0, none, none, none, none⟩ rfl none (fun _ => Except.error "down") (fun _ => Except.ok ⟨"reply", ⟨some 1, some 1, none⟩⟩) none (ChatInput.str "hello") initSession []
  exact ⟨rfl, h.1, h.2⟩

/-- C8: provider-qualified model-name derivation.  For every model name:
openai passes through unchanged; anthropic prepends "claude-" unless the
name already starts with it; google prepends "gemini/" unless present;
deepseek prepends "deepseek/" unless present; the derivation is idempotent
for every configuration (no double-prefixing); and the four example
equations of spec section 8 hold. -/
theorem claim8_model_name_derivation :
    (∀ n : String,
      ModelConfig.litellm_model_name { name := n, provider := "openai" } = n) ∧
    (∀ n : String,
      ModelConfig.litellm_model_name { name := n, provider := "anthropic" } =
        if pyStartsWith n "claude-" then n else "claude-" ++ n) ∧
    (∀ n : String,
      ModelConfig.litellm_model_name { name := n, provider := "google" } =
        if pyStartsWith n "gemini/" then n else "gemini/" ++ n) ∧
    (∀ n : String,
      ModelConfig.litellm_model_name { name := n, provider := "deepseek" } =
        if pyStartsWith n "deepseek/" then n else "deepseek/" ++ n) ∧
    (∀ c : ModelConfig,
      ModelConfig.litellm_model_name { c with name := c.litellm_model_name } =
        c.litellm_model_name) ∧
    ModelConfig.litellm_model_name { name := "gpt-4", provider := "openai" } = "gpt-4" ∧
    ModelConfig.litellm_model_name { name := "3-haiku", provider := "anthropic" } =
      "claude-3-haiku" ∧
    ModelConfig.litellm_model_name { name := "claude-3-haiku", provider := "anthropic" } =
      "claude-3-haiku" ∧
    ModelConfig.litellm_model_name { name := "pro", provider := "google" } = "gemini/pro" := by
  refine ⟨fun n => rfl, fun n => rfl, fun n => rfl, fun n => rfl, ?_, rfl, rfl, rfl, rfl⟩
  intro c
  by_cases h1 : c.provider = "openai"
  · simp [ModelConfig.litellm_model_name, h1]
  by_cases h2 : c.provider = "anthropic"
  · simp [ModelConfig.litellm_model_name, h1, h2, pyStartsWith_qualified]
  by_cases h3 : c.provider = "google"
  · simp [ModelConfig.litellm_model_name, h1, h2, h3, pyStartsWith_qualified]
  by_cases h4 : c.provider = "deepseek"
  · simp [ModelConfig.litellm_model_name, h1, h2, h3, h4, pyStartsWith_qualified]
  · simp [ModelConfig.litellm_model_name, h1, h2, h3, h4]

/-- C10: a limit of zero passed to `get_messages` is treated as "no
limit" — `get_messages msgs (some 0)` is the whole list, identical to
`get_messages msgs none`. -/
theorem claim10_get_messages_zero_limit (msgs : List Message) :
    get_messages msgs (some 0) = get_messages msgs none ∧
    get_messages msgs (some 0) = msgs :=
  ⟨rfl, rfl⟩

/-- C5 counterexample: truncating a one-user-message history (8 chars, so
2 estimated tokens) to a budget of 1 at tick 5 mutates the message list
(it becomes empty) yet leaves `last_updated` at its old value 0, not 5 —
so not every mutation refreshes `last_updated`. -/
theorem claim5_counterexample :
    (truncate_to_token_limit ⟨[⟨Role.user, "aaaaaaaa"⟩], 0, 0⟩ 1 true 5).messages = [] ∧
    (truncate_to_token_limit ⟨[⟨Role.user, "aaaaaaaa"⟩], 0, 0⟩ 1 true 5).last_updated = 0 ∧
    ¬ (truncate_to_token_limit ⟨[⟨Role.user, "aaaaaaaa"⟩], 0, 0⟩ 1 true 5).last_updated = 5 := by
  refine ⟨?_, rfl, by decide⟩
  rfl

/-- C5 amended: `add_message` and `clear` refresh `last_updated` to the
time of the mutation; `truncate_to_token_limit` leaves it untouched; and
`load` replaces it with the persisted value from the file rather than the
time of the load. -/
theorem claim5_amended_last_updated (h : ConversationHistory) (role : Role)
    (content : String) (now : Nat) (max_tokens : Int) (keep_system : Bool)
    (data : HistoryFile) :
    (add_message h role content now).last_updated = now ∧
    (clear h now).last_updated = now ∧
    (truncate_to_token_limit h max_tokens keep_system now).last_updated = h.last_updated ∧
    (load h data now).last_updated = data.last_updated :=
  ⟨rfl, rfl, rfl, rfl⟩

/-- C4 counterexample: constructing a client with the unknown model
identifier "mystery-model" does not fail — `__init__` silently falls back
to exactly the configuration it would pick with no model argument at all
(the default preset). -/
theorem claim4_counterexample :
    presetLookup "mystery-model" = none ∧
    initConfig none (some "mystery-model") "gemini-pro" =
      initConfig none none "gemini-pro" := by
  exact ⟨rfl, rfl⟩

/-- C4 amended: `switch_model` on an unknown identifier fails with the
error that names the model and enumerates the registry's keys, but at
construction an unknown model identifier does not fail: `__init__`
silently selects the same configuration as passing no model. -/
theorem claim4_amended_unknown_model (m d : String) (hm : presetLookup m = none) :
    switch_model m = Except.error (unknownModelMessage m) ∧
    initConfig none (some m) d = initConfig none none d := by
  constructor
  · simp [switch_model, hm]
  · simp [initConfig, hm]

/-- C4 witness: the amended claim at the concrete unknown identifier
"absent-model". -/
theorem claim4_amended_unknown_model_witness :
    switch_model "absent-model" = Except.error (unknownModelMessage "absent-model") ∧
    initConfig none (some "absent-model") "gemini-pro" =
      initConfig none none "gemini-pro" :=
  claim4_amended_unknown_model "absent-model" "gemini-pro" rfl

/-- C1 (code bug): in `_calculate_cost` the assignments on lines 126/130
make `completion_cost` a Python local for the whole function body, so the
call on line 120 raises `UnboundLocalError` before the pricing oracle is
ever consulted and the bare `except:` always takes the fallback branch.
Consequently the result is independent of the oracle, `total_cost` always
equals the locally computed `prompt_cost + completion_cost`, and at the
concrete input (gpt-4 pricing, 1000+1000 tokens, oracle succeeding with
42) the code returns 9/100 where the spec's computation
(`calculate_cost_aim`) returns the oracle's 42. -/
theorem claim1_pricing_oracle_dead_code (cfg : ModelConfig) (oracle : Option Rat)
    (info : UsageInfo) :
    calculate_cost cfg oracle info = calculate_cost cfg none info ∧
    (calculate_cost cfg oracle info).total_cost =
      (calculate_cost cfg oracle info).prompt_cost +
        (calculate_cost cfg oracle info).completion_cost ∧
    (calculate_cost
        { name := "gpt-4", provider := "openai",
          input_cost_per_1k := some (3/100), output_cost_per_1k := some (6/100) }
        (some 42) ⟨some 1000, some 1000, none⟩).total_cost = 9/100 ∧
    (calculate_cost_aim
        { name := "gpt-4", provider := "openai",
          input_cost_per_1k := some (3/100), output_cost_per_1k := some (6/100) }
        (some 42) ⟨some 1000, some 1000, none⟩).total_cost = 42 := by
  refine ⟨rfl, rfl, ?_, rfl⟩
  norm_num [calculate_cost]

end Mirr
